import Mathlib

/-!
Verification of the ESG Narrative Intelligence Layer (`script.js`).

The script renders static report pages from a fixed in-memory profile
store.  We embed the data model (`DATA_PROFILES`, the `titles` table and
the `trends` table), the topic-resolution logic and the DOM-population
sequence of `initGeneratePage` as executable Lean definitions, and prove
the specification's claims about them.

Modelling conventions:
* The DOM is a record of booleans (`Dom`): which target elements exist.
* The page state after rendering is a record (`Page`) whose `Option`
  fields are `none` while the corresponding region has not been written.
* `innerHTML` assignments that generate repeated markup from a list are
  modelled as the list of generated items (one structured view per item),
  in the order in which the string template emits them.
* A JavaScript `TypeError` from dereferencing a missing element (or a
  missing table entry) is modelled with `Except`: `Except.error p` carries
  the partial page state at the point where the script throws.
* `sessionStorage.getItem` returns `null` or a string: `Option String`.
-/

/-- One record of `keyMetrics` (script.js lines 30-37 etc.). -/
structure Metric where
  pillar : String
  value : String
  unit : String
  label : String
  change : String
  dir : String
deriving DecidableEq, Repr

/-- One entry of the `titles` table (script.js lines 179-192). -/
structure TitlePair where
  title : String
  subtitle : String
deriving DecidableEq, Repr

/-- One row of the `trends` table (script.js lines 256-275). -/
structure Trend where
  name : String
  score : String
deriving DecidableEq, Repr

/-- One profile of `DATA_PROFILES` (script.js lines 23-97). -/
structure Profile where
  topic : String
  icon : String
  colorClass : String
  frameworks : List String
  keyMetrics : List Metric
  pullQuote : String
  paragraphs : List String
  integrity : Nat
  audience : String
deriving DecidableEq, Repr

/-- `DATA_PROFILES.climate` (script.js lines 25-47). -/
def climateProfile : Profile :=
  { topic := "Climate & Emissions"
    icon := "🌍"
    colorClass := "climate"
    frameworks := ["GRI 305", "TCFD", "ISSB IFRS S2", "CSRD/ESRS E1", "SBTi"]
    keyMetrics :=
      [ { pillar := "E", value := "18,450", unit := " tCO₂e", label := "Total Scope 1 Emissions", change := "−11.2%", dir := "down" }
      , { pillar := "E", value := "72,100", unit := " tCO₂e", label := "Scope 2 (market-based)", change := "−14.8%", dir := "down" }
      , { pillar := "E", value := "1.5°C", unit := "", label := "SBTi Pathway Alignment", change := "Confirmed", dir := "flat" }
      , { pillar := "G", value := "96%", unit := "", label := "Data Assurance Level", change := "3rd-party verified", dir := "flat" }
      , { pillar := "E", value := "2038", unit := "", label := "Net-Zero Target Year", change := "2yrs ahead of plan", dir := "up" }
      , { pillar := "S", value := "€47M", unit := "", label := "Green CapEx FY2024", change := "↑ 9.1% of total", dir := "up" } ]
    pullQuote := "Science-based targets without data-backed performance are promises, not progress. This quarter, the numbers and the narrative finally align."
    paragraphs :=
      [ "Aggregate Scope 1 and Scope 2 greenhouse gas emissions fell to <strong>90,550 tCO₂e</strong> in FY2024 — a <span class=\"highlight-e\">combined reduction of 13.4%</span> versus the prior year, and the steepest annual decline recorded in the company's emissions history. Scope 1 direct combustion emissions reached <strong>18,450 tCO₂e</strong>, driven by the retirement of two legacy gas-fired backup generators and the electrification of on-site fleet vehicles across four manufacturing campuses. Market-based Scope 2 emissions declined to <strong>72,100 tCO₂e</strong>, reflecting active procurement of Guarantees of Origin (GOs) from wind and solar installations meeting the RE100 additionality criteria."
      , "These outcomes place the organisation on a <span class=\"highlight-e\">1.5°C-compatible trajectory</span> as validated by the Science Based Targets initiative (SBTi) — a commitment independently assessed against the absolute contraction method. Under TCFD's transition risk framework, the company's exposure to the EU Emissions Trading System, now pricing above <strong>€65 per tonne CO₂</strong>, has been meaningfully reduced. Avoided carbon cost in FY2024 is estimated at <strong>€5.9 million</strong> — a figure that amplifies the financial materiality of continued decarbonisation investment."
      , "Capital allocation to low-carbon infrastructure reached <strong>€47.2 million</strong> — representing 9.1% of total CapEx — spanning rooftop photovoltaic installations, building management system upgrades, and fleet electrification. As required under Article 8 of the EU Taxonomy Regulation, 61% of this expenditure qualifies as Taxonomy-aligned under the \"climate change mitigation\" environmental objective. The remaining 39% is under Taxonomy review pending updated delegated acts."
      , "Forward guidance: At current trajectory, Scope 1 and 2 net-zero is projected by <strong>2038</strong>, two years ahead of the 2040 commitment. Scope 3 emissions across the upstream value chain remain the primary outstanding data gap; a supplier engagement programme targeting 80% Scope 3 coverage by FY2026 was launched in Q3. Management affirms that no material gap exists between stated climate ambition and operational performance as at the reporting date." ]
    integrity := 98
    audience := "CSRD Filing · Investor Disclosure" }

/-- `DATA_PROFILES.energy` (script.js lines 49-71). -/
def energyProfile : Profile :=
  { topic := "Energy & Efficiency"
    icon := "⚡"
    colorClass := "energy"
    frameworks := ["GRI 302", "ISO 50001", "EU Taxonomy", "CDP Energy", "RE100"]
    keyMetrics :=
      [ { pillar := "E", value := "2,140", unit := " GWh", label := "Total Energy Consumed", change := "−6.3% YoY", dir := "down" }
      , { pillar := "E", value := "42%", unit := "", label := "Renewable Energy Mix", change := "↑ +7 pp YoY", dir := "up" }
      , { pillar := "E", value := "€4.2M", unit := "", label := "Energy Cost Avoided", change := "vs 2022 baseline", dir := "up" }
      , { pillar := "G", value := "847", unit := "", label := "Active IoT Sensors", change := "15-sec refresh", dir := "flat" }
      , { pillar := "E", value := "1.8", unit := " tCO₂e", label := "Carbon Intensity /MWh", change := "−12% vs prior year", dir := "down" }
      , { pillar := "S", value := "620", unit := "", label := "Staff Energy Trained", change := "↑ 34% YoY", dir := "up" } ]
    pullQuote := "Forty-two per cent renewable energy is not a ceiling — it is the floor from which the next phase of the energy transition begins."
    paragraphs :=
      [ "Total energy consumption across all operational boundaries reached <strong>2,140 GWh</strong> in FY2024 — a <span class=\"highlight-e\">6.3% reduction year-over-year</span>, achieved through a combination of ISO 50001-aligned energy management practices, real-time load optimisation via <strong>847 IoT monitoring nodes</strong>, and the elimination of energy-intensive legacy processes across three production lines. The carbon intensity of energy consumed declined to a record-low <strong>1.8 tCO₂e per MWh</strong>, outperforming the sector benchmark of 2.4 tCO₂e/MWh reported by the IEA for comparable manufacturing activities."
      , "Renewable energy now accounts for <span class=\"highlight-e\">42% of total electricity consumption</span> — up from 35% in FY2023 — representing the single largest year-on-year improvement in the company's renewable portfolio since the RE100 commitment was made in 2021. This was achieved through onsite solar photovoltaic expansion (net addition: 38 MWp), two new Power Purchase Agreements with independently certified wind farms in Northern Europe, and the commissioning of a 12 MWh battery energy storage system enabling renewable dispatch into peak demand windows."
      , "The financial dimension of energy efficiency is equally material: avoided energy costs in FY2024 reached <strong>€4.2 million</strong> against the 2022 baseline, as efficiency measures reduced total consumption that would otherwise have occurred under business-as-usual assumptions. Energy intensity per unit of production declined by <span class=\"highlight-e\">8.9%</span>, advancing the company's trajectory toward its 2030 target of a 40% reduction in energy intensity. Sub-metering at process level, enabled by the IoT sensor network, has provided granular attribution of savings by facility and shift pattern."
      , "Looking ahead, the energy roadmap to 2030 targets <span class=\"highlight-e\">65% renewable energy penetration</span>, supported by a committed pipeline of 110 MWp of additional onsite generation and a third PPA under negotiation. The workforce dimension of this transition is equally prioritised: <strong>620 employees</strong> received structured energy efficiency training in FY2024, embedding operational ownership of consumption reduction across the organisation. All energy data in this disclosure is assured to a limited assurance level by an accredited third party under ISAE 3000 standards." ]
    integrity := 97
    audience := "Sustainability Report · CDP Submission" }

/-- `DATA_PROFILES.operations` (script.js lines 73-95). -/
def operationsProfile : Profile :=
  { topic := "Operations & IoT ESG"
    icon := "🏭"
    colorClass := "operations"
    frameworks := ["GRI 303", "GRI 306", "SASB", "UN SDG 9", "UN SDG 12"]
    keyMetrics :=
      [ { pillar := "E", value := "94%", unit := "", label := "Waste Diversion Rate", change := "↑ +3pp YoY", dir := "up" }
      , { pillar := "E", value := "−6.2%", unit := "", label := "Water Withdrawal YoY", change := "vs SBT water target", dir := "down" }
      , { pillar := "S", value := "0.38", unit := "", label := "TRIR (Safety Rate)", change := "−28% vs 2021", dir := "down" }
      , { pillar := "G", value := "99.1%", unit := "", label := "Uptime Across Sites", change := "12 operating sites", dir := "flat" }
      , { pillar := "E", value := "78%", unit := "", label := "Circular Material Input", change := "↑ from 71% (FY23)", dir := "up" }
      , { pillar := "S", value := "12", unit := "", label := "Sites Monitored Live", change := "Real-time IoT", dir := "flat" } ]
    pullQuote := "When machines communicate ESG data in real time, sustainability stops being a reporting exercise and becomes an operational discipline."
    paragraphs :=
      [ "Across <strong>12 manufacturing and logistics sites</strong>, operational performance in FY2024 reflects the deepening integration of IoT sensor infrastructure into ESG management. Real-time monitoring, with a 15-second data refresh cycle across process points and utilities, has enabled continuous rather than periodic ESG tracking — closing the gap between operational reality and disclosed performance. The total recordable incident rate (TRIR) fell to <span class=\"highlight-s\">0.38 per 200,000 hours worked</span>, a 28% reduction since 2021, attributable to predictive maintenance alerts, automated hazard detection, and a strengthened behavioural safety culture embedded through workforce training."
      , "Water stewardship remains a material topic given the geographic distribution of sites in water-stressed regions. Total water withdrawal declined by <span class=\"highlight-e\">6.2%</span> year-over-year to 1.84 million cubic metres — a result directly enabled by IoT-linked flow sensors triggering automated conservation protocols when consumption approaches site-level budgets. This trajectory aligns with the Science Based Targets Network (SBTN) water framework, targeting a 15% reduction in absolute withdrawal by 2030 from a 2020 baseline. Water recycled and reused within facility boundaries reached <strong>31% of total water processed</strong>, up from 26% in FY2023."
      , "Circular economy performance advanced substantially. The overall waste diversion rate reached <span class=\"highlight-e\">94%</span> — meaning less than 6% of generated waste was directed to landfill. Circular material inputs, incorporating recycled feedstocks and bio-based materials, now account for <span class=\"highlight-e\">78% of total material input by mass</span>, up from 71% the prior year, advancing alignment with EU Green Deal supply chain standards. Hazardous waste generation declined by 14%, reflecting material substitution decisions guided by lifecycle assessment data embedded in procurement workflows."
      , "The broader value of IoT-enabled operations lies in the quality of ESG data it produces: <span class=\"highlight-g\">99.1% operational uptime</span> across all monitored sites ensured continuous data capture, reducing the estimation methodologies previously required to bridge sensor gaps. This data completeness directly supports the disclosure integrity requirements of CSRD, ISSB, and SASB frameworks, where material omissions and significant estimation uncertainty are flagged as disclosure risks. Management confirms that no material ESG data was estimated or extrapolated in this period's operational reporting." ]
    integrity := 96
    audience := "Board ESG Report · SASB Industry Filing" }

/-- The `DATA_PROFILES` object as a lookup by key (script.js lines 23-97):
JavaScript property access `DATA_PROFILES[topic]` yields `undefined`
(`none`) for any key other than the three defined ones. -/
def DATA_PROFILES (topic : String) : Option Profile :=
  if topic = "climate" then some climateProfile
  else if topic = "energy" then some energyProfile
  else if topic = "operations" then some operationsProfile
  else none

/-- `titles.climate` (script.js lines 180-183). -/
def climateTitle : TitlePair :=
  { title := "Climate Performance & Decarbonisation Progress: FY2024 Strategic Disclosure"
    subtitle := "Science-based analysis of greenhouse gas trajectories, net-zero alignment, and carbon-related financial exposure across the enterprise value chain." }

/-- `titles.energy` (script.js lines 184-187). -/
def energyTitle : TitlePair :=
  { title := "Energy Transition Intelligence: Renewable Integration & Efficiency Performance FY2024"
    subtitle := "IoT-informed assessment of energy consumption, renewable portfolio expansion, and intensity reduction against 2030 efficiency targets." }

/-- `titles.operations` (script.js lines 188-191). -/
def operationsTitle : TitlePair :=
  { title := "Operational ESG Intelligence: IoT-Enabled Sustainability Performance FY2024"
    subtitle := "Real-time sensor data synthesis across water stewardship, circular economy, workforce safety, and operational integrity metrics." }

/-- The `titles` table as a lookup by key (script.js lines 179-192). -/
def titles (topic : String) : Option TitlePair :=
  if topic = "climate" then some climateTitle
  else if topic = "energy" then some energyTitle
  else if topic = "operations" then some operationsTitle
  else none

/-- `trends.climate` (script.js lines 257-262). -/
def climateTrends : List Trend :=
  [ { name := "CBAM & Carbon Pricing", score := "97" }
  , { name := "Net-Zero Corporate Commitments", score := "94" }
  , { name := "ISSB S2 Global Adoption", score := "88" }
  , { name := "Scope 3 Value Chain Pressure", score := "83" } ]

/-- `trends.energy` (script.js lines 263-268). -/
def energyTrends : List Trend :=
  [ { name := "RE100 Corporate Renewables", score := "91" }
  , { name := "Energy Efficiency Mandates", score := "86" }
  , { name := "Grid Flexibility & Storage", score := "79" }
  , { name := "Green Power Procurement", score := "74" } ]

/-- `trends.operations` (script.js lines 269-274). -/
def operationsTrends : List Trend :=
  [ { name := "Circular Economy Regulation", score := "88" }
  , { name := "Water Stewardship (SBTN)", score := "82" }
  , { name := "IoT & ESG Data Quality", score := "78" }
  , { name := "UN SDG 12 Supply Chains", score := "73" } ]

/-- The `trends` table as a lookup by key (script.js lines 256-275). -/
def trends (topic : String) : Option (List Trend) :=
  if topic = "climate" then some climateTrends
  else if topic = "energy" then some energyTrends
  else if topic = "operations" then some operationsTrends
  else none

/-- The Landing Controller accepts a clicked topic exactly when
`DATA_PROFILES[topic]` is defined (script.js line 119). -/
def landingAccepts (topic : String) : Bool :=
  (DATA_PROFILES topic).isSome

/-- Which target DOM elements exist on the report page: one boolean per
element id that `initGeneratePage` looks up with `getElementById`. -/
structure Dom where
  topicBadge : Bool
  reportDate : Bool
  reportHeader : Bool
  reportTypeTag : Bool
  reportTitle : Bool
  reportSubtitle : Bool
  dataCardsGrid : Bool
  narrativeBody : Bool
  frameworkTags : Bool
  integrityFill : Bool
  integrityLabel : Bool
  audienceLabel : Bool
  trendContainer : Bool
  fwAlignContainer : Bool
  exportBtn : Bool
deriving DecidableEq, Repr

/-- The report page with every target element present. -/
def fullDom : Dom :=
  { topicBadge := true, reportDate := true, reportHeader := true
    reportTypeTag := true, reportTitle := true, reportSubtitle := true
    dataCardsGrid := true, narrativeBody := true, frameworkTags := true
    integrityFill := true, integrityLabel := true, audienceLabel := true
    trendContainer := true, fwAlignContainer := true, exportBtn := true }

/-- Structured view of one ESG data card, one field per interpolation slot
of the template string in script.js lines 201-208. -/
structure CardView where
  cardClass : String
  pillarText : String
  valueText : String
  unitText : String
  labelText : String
  changeClass : String
  changeText : String
deriving DecidableEq, Repr

/-- The card built for one metric record (script.js lines 201-208,
including the two inline conditional chains for pillar and direction). -/
def metricCard (m : Metric) : CardView :=
  { cardClass := "esg-data-card " ++ m.pillar.toLower
    pillarText := "● " ++ (if m.pillar = "E" then "Environmental" else if m.pillar = "S" then "Social" else "Governance")
    valueText := m.value
    unitText := m.unit
    labelText := m.label
    changeClass := "dc-change " ++ m.dir
    changeText := (if m.dir = "up" then "▲" else if m.dir = "down" then "▼" else "—") ++ " " ++ m.change }

/-- The metrics grid: `data.keyMetrics.map(...)` (script.js line 201). -/
def dataCards (ms : List Metric) : List CardView :=
  ms.map metricCard

/-- One block appended to the narrative region: either a paragraph
(`<p>…</p>`) or the pull-quote `div` (with its color class and text). -/
inductive NarrBlock where
  | para : String → NarrBlock
  | quote : String → String → NarrBlock
deriving DecidableEq, Repr

/-- Whether a narrative block is the pull-quote block. -/
def NarrBlock.isQuote : NarrBlock → Bool
  | NarrBlock.quote _ _ => true
  | NarrBlock.para _ => false

/-- The narrative region content: `paras.forEach((p, i) => …)` appends one
paragraph block per paragraph and, when `i === 1`, the pull-quote block
right after it (script.js lines 215-227). -/
def narrativeBlocks (paragraphs : List String) (colorClass pq : String) : List NarrBlock :=
  (paragraphs.enum).flatMap fun pi =>
    NarrBlock.para pi.2 :: (if pi.1 = 1 then [NarrBlock.quote colorClass pq] else [])

/-- One row of the framework-alignment sidebar (script.js lines 287-291). -/
structure FwRow where
  name : String
  status : String
  label : String
deriving DecidableEq, Repr

/-- `data.frameworks.map((f, i) => …)` building the alignment rows with the
position-based status and label (script.js lines 287-291). -/
def fwStatus (frameworks : List String) : List FwRow :=
  (frameworks.enum).map fun fi =>
    { name := fi.2
      status := if fi.1 < 3 then "ready" else if fi.1 = 3 then "partial" else "pending"
      label := if fi.1 < 3 then "✓ Ready" else if fi.1 = 3 then "◑ Partial" else "○ Pending" }

/-- The observable result of the render: which regions hold what.  `none`
means the region was never written.  List-valued regions hold the
structured items the corresponding `innerHTML` template generates. -/
structure Page where
  docTitle : Option String
  topicBadgeText : Option String
  topicBadgeClass : Option String
  reportDateText : Option String
  reportHeaderClass : Option String
  reportTypeTagClass : Option String
  reportTypeTagText : Option String
  reportTitleText : Option String
  reportSubtitleText : Option String
  dataCards : Option (List CardView)
  narrative : Option (List NarrBlock)
  fwTags : Option (List String)
  integrityLabelText : Option String
  integrityFillScheduled : Bool
  audienceText : Option String
  trendRows : Option (List Trend)
  fwAlignRows : Option (List FwRow)
  exportBound : Bool
deriving DecidableEq, Repr

/-- The page before `initGeneratePage` runs: nothing populated. -/
def emptyPage : Page :=
  { docTitle := none, topicBadgeText := none, topicBadgeClass := none
    reportDateText := none, reportHeaderClass := none
    reportTypeTagClass := none, reportTypeTagText := none
    reportTitleText := none, reportSubtitleText := none
    dataCards := none, narrative := none, fwTags := none
    integrityLabelText := none, integrityFillScheduled := false
    audienceText := none, trendRows := none, fwAlignRows := none
    exportBound := false }

/-- Outcome of `initGeneratePage`: early return before any DOM write
(`noop`), normal completion (`ok`), or an uncaught `TypeError` carrying
the partial page state written before the throw (`threw`). -/
inductive RenderResult where
  | noop : RenderResult
  | ok : Page → RenderResult
  | threw : Page → RenderResult
deriving DecidableEq, Repr

/-- The page state an outcome leaves behind (a `noop` wrote nothing). -/
def RenderResult.page : RenderResult → Page
  | RenderResult.noop => emptyPage
  | RenderResult.ok p => p
  | RenderResult.threw p => p

/-- Whether the outcome is an uncaught exception. -/
def RenderResult.isThrew : RenderResult → Bool
  | RenderResult.threw _ => true
  | _ => false

/-- Step 4a: `document.title = …` (script.js line 157), unconditional. -/
def setDocTitle (data : Profile) (p : Page) : Page :=
  { p with docTitle := some (data.topic ++ " — ESG Narrative Intelligence") }

/-- Step 4b: topic badge, guarded by its element (script.js lines 160-164). -/
def setTopicBadge (dom : Dom) (data : Profile) (p : Page) : Page :=
  if dom.topicBadge then
    { p with topicBadgeText := some (data.icon ++ " " ++ data.topic)
             topicBadgeClass := some ("gen-topic-badge " ++ data.colorClass) }
  else p

/-- Step 4c: report date, guarded by its element (script.js lines 167-168). -/
def setReportDate (dom : Dom) (today : String) (p : Page) : Page :=
  if dom.reportDate then { p with reportDateText := some today } else p

/-- Step 4d (script.js lines 171-176): guarded by `reportHeader`, but inside
the guard `document.getElementById('reportTypeTag')` is dereferenced
without its own check — a missing `reportTypeTag` element throws after the
header class was already written. -/
def setReportHeader (dom : Dom) (data : Profile) (p : Page) : Except Page Page :=
  if dom.reportHeader then
    let p1 := { p with reportHeaderClass := some ("report-header " ++ data.colorClass) }
    if dom.reportTypeTag then
      Except.ok { p1 with reportTypeTagClass := some ("report-type-tag " ++ data.colorClass)
                          reportTypeTagText := some (data.icon ++ "  " ++ data.topic ++ " Narrative") }
    else Except.error p1
  else Except.ok p

/-- Step 4e (script.js lines 194-196): `titles[topic]` is looked up and
`document.getElementById('reportTitle')` / `('reportSubtitle')` are
dereferenced with no guard: a missing table entry or element throws. -/
def setTitles (dom : Dom) (t : Option TitlePair) (p : Page) : Except Page Page :=
  match t with
  | none => Except.error p
  | some tp =>
    if dom.reportTitle then
      let p1 := { p with reportTitleText := some tp.title }
      if dom.reportSubtitle then
        Except.ok { p1 with reportSubtitleText := some tp.subtitle }
      else Except.error p1
    else Except.error p

/-- Step 4f: metrics grid, guarded (script.js lines 199-209). -/
def setDataCards (dom : Dom) (data : Profile) (p : Page) : Page :=
  if dom.dataCardsGrid then { p with dataCards := some (dataCards data.keyMetrics) } else p

/-- Step 4g: narrative region, guarded (script.js lines 212-228). -/
def setNarrative (dom : Dom) (data : Profile) (p : Page) : Page :=
  if dom.narrativeBody then
    { p with narrative := some (narrativeBlocks data.paragraphs data.colorClass data.pullQuote) }
  else p

/-- Step 4h: framework tag list, guarded (script.js lines 231-234): one
`fw-tag` span per framework string, in order. -/
def setFwTags (dom : Dom) (data : Profile) (p : Page) : Page :=
  if dom.frameworkTags then { p with fwTags := some data.frameworks } else p

/-- Step 4i: integrity bar, guarded by both elements at once (script.js
lines 237-247); the fill-width animation is only scheduled. -/
def setIntegrity (dom : Dom) (data : Profile) (p : Page) : Page :=
  if dom.integrityFill && dom.integrityLabel then
    { p with integrityLabelText := some ("Narrative Integrity: " ++ toString data.integrity ++ "%")
             integrityFillScheduled := true }
  else p

/-- Step 4j: audience line, guarded (script.js lines 250-251). -/
def setAudience (dom : Dom) (data : Profile) (p : Page) : Page :=
  if dom.audienceLabel then { p with audienceText := some data.audience } else p

/-- Step 4k (script.js lines 254-282): guarded by `trendContainer`; inside
the guard `trends[topic].map` throws if the table entry is missing. -/
def setTrends (dom : Dom) (trs : Option (List Trend)) (p : Page) : Except Page Page :=
  if dom.trendContainer then
    match trs with
    | none => Except.error p
    | some l => Except.ok { p with trendRows := some l }
  else Except.ok p

/-- Step 4l: framework-alignment sidebar, guarded (script.js lines 285-298). -/
def setFwAlign (dom : Dom) (data : Profile) (p : Page) : Page :=
  if dom.fwAlignContainer then { p with fwAlignRows := some (fwStatus data.frameworks) } else p

/-- Step 4m: export button handler, guarded (script.js lines 301-306). -/
def setExport (dom : Dom) (p : Page) : Page :=
  if dom.exportBtn then { p with exportBound := true } else p

/-- Exception propagation: continue with the page state unless a step
threw, in which case the partial state is the final one. -/
def onOk (e : Except Page Page) (k : Page → RenderResult) : RenderResult :=
  match e with
  | Except.error q => RenderResult.threw q
  | Except.ok p => k p

/-- The population sequence of `initGeneratePage` after the profile lookup
succeeded (script.js lines 154-307), in source order; an exception at any
step aborts the remaining steps. -/
def renderBody (dom : Dom) (data : Profile) (t : Option TitlePair)
    (trs : Option (List Trend)) (today : String) : RenderResult :=
  onOk (setReportHeader dom data
      (setReportDate dom today (setTopicBadge dom data (setDocTitle data emptyPage)))) fun p =>
  onOk (setTitles dom t p) fun p =>
  onOk (setTrends dom trs
      (setAudience dom data (setIntegrity dom data (setFwTags dom data
        (setNarrative dom data (setDataCards dom data p)))))) fun p =>
  RenderResult.ok (setExport dom (setFwAlign dom data p))

/-- The stored selection resolved to the active topic (script.js line 150):
`sessionStorage.getItem('esg_topic') || 'climate'` — `getItem` returns
`null` when absent, and `||` also replaces the empty string (falsy). -/
def resolveTopic (stored : Option String) : String :=
  match stored with
  | none => "climate"
  | some s => if s = "" then "climate" else s

/-- `initGeneratePage` (script.js lines 148-307): resolve the topic, look
it up, return without touching the DOM when the lookup misses (line 152),
otherwise run the population sequence. -/
def initGeneratePage (stored : Option String) (dom : Dom) (today : String) : RenderResult :=
  let topic := resolveTopic stored
  match DATA_PROFILES topic with
  | none => RenderResult.noop
  | some data => renderBody dom data (titles topic) (trends topic) today

/-- The guarded-population contract for one render outcome: no exception,
and each optionally-guarded region is populated exactly when its own
target element is present (the title, subtitle and page title are the
unconditional parts; the integrity step needs both of its elements). -/
def guardedPopulation (r : RenderResult) (dom : Dom) : Prop :=
  r.isThrew = false ∧
  r.page.docTitle.isSome = true ∧
  r.page.topicBadgeText.isSome = dom.topicBadge ∧
  r.page.reportDateText.isSome = dom.reportDate ∧
  r.page.reportHeaderClass.isSome = dom.reportHeader ∧
  r.page.reportTypeTagText.isSome = dom.reportHeader ∧
  r.page.reportTitleText.isSome = true ∧
  r.page.reportSubtitleText.isSome = true ∧
  r.page.dataCards.isSome = dom.dataCardsGrid ∧
  r.page.narrative.isSome = dom.narrativeBody ∧
  r.page.fwTags.isSome = dom.frameworkTags ∧
  r.page.integrityLabelText.isSome = (dom.integrityFill && dom.integrityLabel) ∧
  r.page.audienceText.isSome = dom.audienceLabel ∧
  r.page.trendRows.isSome = dom.trendContainer ∧
  r.page.fwAlignRows.isSome = dom.fwAlignContainer ∧
  r.page.exportBound = dom.exportBtn

/- ══════════════ helper lemmas ══════════════ -/

/-- Lookup lemmas for the three fixed tables. -/
theorem DATA_PROFILES_climate : DATA_PROFILES "climate" = some climateProfile := rfl

theorem DATA_PROFILES_energy : DATA_PROFILES "energy" = some energyProfile := rfl

theorem DATA_PROFILES_operations : DATA_PROFILES "operations" = some operationsProfile := rfl

theorem titles_climate : titles "climate" = some climateTitle := rfl

theorem titles_energy : titles "energy" = some energyTitle := rfl

theorem titles_operations : titles "operations" = some operationsTitle := rfl

theorem trends_climate : trends "climate" = some climateTrends := rfl

theorem trends_energy : trends "energy" = some energyTrends := rfl

theorem trends_operations : trends "operations" = some operationsTrends := rfl

/-- A topic with a profile is one of the three defined keys. -/
theorem valid_topic_cases (t : String) (h : (DATA_PROFILES t).isSome = true) :
    t = "climate" ∨ t = "energy" ∨ t = "operations" := by
  unfold DATA_PROFILES at h
  split_ifs at h with h1 h2 h3
  · exact Or.inl h1
  · exact Or.inr (Or.inl h2)
  · exact Or.inr (Or.inr h3)
  · simp at h

/-- Past index 1, the narrative loop emits only paragraph blocks. -/
theorem narrative_tail (rest : List String) (c q : String) (n : Nat) (hn : 2 ≤ n) :
    ((List.enumFrom n rest).flatMap fun pi =>
      NarrBlock.para pi.2 :: (if pi.1 = 1 then [NarrBlock.quote c q] else [])) =
    rest.map NarrBlock.para := by
  induction rest generalizing n with
  | nil => rfl
  | cons x xs ih =>
    have hne : ¬ n = 1 := by omega
    simp only [List.enumFrom, List.flatMap_cons, if_neg hne, List.map_cons]
    simpa using ih (n + 1) (by omega)

/-- With at least two paragraphs the narrative is: first paragraph, second
paragraph, the pull-quote, then the remaining paragraphs in order. -/
theorem narrativeBlocks_cons_cons (a b : String) (rest : List String) (c q : String) :
    narrativeBlocks (a :: b :: rest) c q =
      NarrBlock.para a :: NarrBlock.para b :: NarrBlock.quote c q ::
        rest.map NarrBlock.para := by
  unfold narrativeBlocks
  simp only [List.enum, List.enumFrom, List.flatMap_cons]
  simpa using narrative_tail rest c q 2 (by omega)

/-- Mapping `NarrBlock.para` over a list never produces a quote block. -/
theorem countP_isQuote_map_para (l : List String) :
    (l.map NarrBlock.para).countP NarrBlock.isQuote = 0 := by
  induction l with
  | nil => rfl
  | cons x xs ih => simp [List.countP_cons, NarrBlock.isQuote, ih]

/-- `(if b then some x else none).isSome = b`. -/
theorem isSome_ite_some_none {α : Type} (b : Bool) (x : α) :
    (if b = true then some x else none).isSome = b := by
  cases b <;> simp

theorem onOk_ok (p : Page) (k : Page → RenderResult) : onOk (Except.ok p) k = k p := rfl

theorem onOk_error (q : Page) (k : Page → RenderResult) :
    onOk (Except.error q) k = RenderResult.threw q := rfl

theorem renderBody_eq (dom : Dom) (data : Profile) (tp : TitlePair) (trl : List Trend)
    (today : String)
    (h1 : dom.reportTitle = true) (h2 : dom.reportSubtitle = true)
    (h3 : dom.reportHeader = true → dom.reportTypeTag = true) :
    renderBody dom data (some tp) (some trl) today = RenderResult.ok
      { docTitle := some (data.topic ++ " — ESG Narrative Intelligence")
        topicBadgeText := if dom.topicBadge then some (data.icon ++ " " ++ data.topic) else none
        topicBadgeClass := if dom.topicBadge then some ("gen-topic-badge " ++ data.colorClass) else none
        reportDateText := if dom.reportDate then some today else none
        reportHeaderClass := if dom.reportHeader then some ("report-header " ++ data.colorClass) else none
        reportTypeTagClass := if dom.reportHeader then some ("report-type-tag " ++ data.colorClass) else none
        reportTypeTagText := if dom.reportHeader then some (data.icon ++ "  " ++ data.topic ++ " Narrative") else none
        reportTitleText := some tp.title
        reportSubtitleText := some tp.subtitle
        dataCards := if dom.dataCardsGrid then some (dataCards data.keyMetrics) else none
        narrative := if dom.narrativeBody then
          some (narrativeBlocks data.paragraphs data.colorClass data.pullQuote) else none
        fwTags := if dom.frameworkTags then some data.frameworks else none
        integrityLabelText := if dom.integrityFill && dom.integrityLabel then
          some ("Narrative Integrity: " ++ toString data.integrity ++ "%") else none
        integrityFillScheduled := dom.integrityFill && dom.integrityLabel
        audienceText := if dom.audienceLabel then some data.audience else none
        trendRows := if dom.trendContainer then some trl else none
        fwAlignRows := if dom.fwAlignContainer then some (fwStatus data.frameworks) else none
        exportBound := dom.exportBtn } := by
  have eA : setReportDate dom today (setTopicBadge dom data (setDocTitle data emptyPage)) =
      { docTitle := some (data.topic ++ " — ESG Narrative Intelligence")
        topicBadgeText := if dom.topicBadge then some (data.icon ++ " " ++ data.topic) else none
        topicBadgeClass := if dom.topicBadge then some ("gen-topic-badge " ++ data.colorClass) else none
        reportDateText := if dom.reportDate then some today else none
        reportHeaderClass := none, reportTypeTagClass := none, reportTypeTagText := none
        reportTitleText := none, reportSubtitleText := none, dataCards := none
        narrative := none, fwTags := none, integrityLabelText := none
        integrityFillScheduled := false, audienceText := none, trendRows := none
        fwAlignRows := none, exportBound := false } := by
    cases hb : dom.topicBadge <;> cases hd : dom.reportDate <;>
      simp [setDocTitle, setTopicBadge, setReportDate, emptyPage, hb, hd]
  have eB : setReportHeader dom data
      { docTitle := some (data.topic ++ " — ESG Narrative Intelligence")
        topicBadgeText := if dom.topicBadge then some (data.icon ++ " " ++ data.topic) else none
        topicBadgeClass := if dom.topicBadge then some ("gen-topic-badge " ++ data.colorClass) else none
        reportDateText := if dom.reportDate then some today else none
        reportHeaderClass := none, reportTypeTagClass := none, reportTypeTagText := none
        reportTitleText := none, reportSubtitleText := none, dataCards := none
        narrative := none, fwTags := none, integrityLabelText := none
        integrityFillScheduled := false, audienceText := none, trendRows := none
        fwAlignRows := none, exportBound := false } = Except.ok
      { docTitle := some (data.topic ++ " — ESG Narrative Intelligence")
        topicBadgeText := if dom.topicBadge then some (data.icon ++ " " ++ data.topic) else none
        topicBadgeClass := if dom.topicBadge then some ("gen-topic-badge " ++ data.colorClass) else none
        reportDateText := if dom.reportDate then some today else none
        reportHeaderClass := if dom.reportHeader then some ("report-header " ++ data.colorClass) else none
        reportTypeTagClass := if dom.reportHeader then some ("report-type-tag " ++ data.colorClass) else none
        reportTypeTagText := if dom.reportHeader then some (data.icon ++ "  " ++ data.topic ++ " Narrative") else none
        reportTitleText := none, reportSubtitleText := none, dataCards := none
        narrative := none, fwTags := none, integrityLabelText := none
        integrityFillScheduled := false, audienceText := none, trendRows := none
        fwAlignRows := none, exportBound := false } := by
    cases hh : dom.reportHeader
    · simp [setReportHeader, hh]
    · have ht := h3 hh
      simp [setReportHeader, hh, ht]
  have eC : setTitles dom (some tp)
      { docTitle := some (data.topic ++ " — ESG Narrative Intelligence")
        topicBadgeText := if dom.topicBadge then some (data.icon ++ " " ++ data.topic) else none
        topicBadgeClass := if dom.topicBadge then some ("gen-topic-badge " ++ data.colorClass) else none
        reportDateText := if dom.reportDate then some today else none
        reportHeaderClass := if dom.reportHeader then some ("report-header " ++ data.colorClass) else none
        reportTypeTagClass := if dom.reportHeader then some ("report-type-tag " ++ data.colorClass) else none
        reportTypeTagText := if dom.reportHeader then some (data.icon ++ "  " ++ data.topic ++ " Narrative") else none
        reportTitleText := none, reportSubtitleText := none, dataCards := none
        narrative := none, fwTags := none, integrityLabelText := none
        integrityFillScheduled := false, audienceText := none, trendRows := none
        fwAlignRows := none, exportBound := false } = Except.ok
      { docTitle := some (data.topic ++ " — ESG Narrative Intelligence")
        topicBadgeText := if dom.topicBadge then some (data.icon ++ " " ++ data.topic) else none
        topicBadgeClass := if dom.topicBadge then some ("gen-topic-badge " ++ data.colorClass) else none
        reportDateText := if dom.reportDate then some today else none
        reportHeaderClass := if dom.reportHeader then some ("report-header " ++ data.colorClass) else none
        reportTypeTagClass := if dom.reportHeader then some ("report-type-tag " ++ data.colorClass) else none
        reportTypeTagText := if dom.reportHeader then some (data.icon ++ "  " ++ data.topic ++ " Narrative") else none
        reportTitleText := some tp.title
        reportSubtitleText := some tp.subtitle
        dataCards := none, narrative := none, fwTags := none, integrityLabelText := none
        integrityFillScheduled := false, audienceText := none, trendRows := none
        fwAlignRows := none, exportBound := false } := by
    simp [setTitles, h1, h2]
  have eD : setAudience dom data (setIntegrity dom data (setFwTags dom data
      (setNarrative dom data (setDataCards dom data
      { docTitle := some (data.topic ++ " — ESG Narrative Intelligence")
        topicBadgeText := if dom.topicBadge then some (data.icon ++ " " ++ data.topic) else none
        topicBadgeClass := if dom.topicBadge then some ("gen-topic-badge " ++ data.colorClass) else none
        reportDateText := if dom.reportDate then some today else none
        reportHeaderClass := if dom.reportHeader then some ("report-header " ++ data.colorClass) else none
        reportTypeTagClass := if dom.reportHeader then some ("report-type-tag " ++ data.colorClass) else none
        reportTypeTagText := if dom.reportHeader then some (data.icon ++ "  " ++ data.topic ++ " Narrative") else none
        reportTitleText := some tp.title
        reportSubtitleText := some tp.subtitle
        dataCards := none, narrative := none, fwTags := none, integrityLabelText := none
        integrityFillScheduled := false, audienceText := none, trendRows := none
        fwAlignRows := none, exportBound := false })))) =
      { docTitle := some (data.topic ++ " — ESG Narrative Intelligence")
        topicBadgeText := if dom.topicBadge then some (data.icon ++ " " ++ data.topic) else none
        topicBadgeClass := if dom.topicBadge then some ("gen-topic-badge " ++ data.colorClass) else none
        reportDateText := if dom.reportDate then some today else none
        reportHeaderClass := if dom.reportHeader then some ("report-header " ++ data.colorClass) else none
        reportTypeTagClass := if dom.reportHeader then some ("report-type-tag " ++ data.colorClass) else none
        reportTypeTagText := if dom.reportHeader then some (data.icon ++ "  " ++ data.topic ++ " Narrative") else none
        reportTitleText := some tp.title
        reportSubtitleText := some tp.subtitle
        dataCards := if dom.dataCardsGrid then some (dataCards data.keyMetrics) else none
        narrative := if dom.narrativeBody then
          some (narrativeBlocks data.paragraphs data.colorClass data.pullQuote) else none
        fwTags := if dom.frameworkTags then some data.frameworks else none
        integrityLabelText := if dom.integrityFill && dom.integrityLabel then
          some ("Narrative Integrity: " ++ toString data.integrity ++ "%") else none
        integrityFillScheduled := dom.integrityFill && dom.integrityLabel
        audienceText := if dom.audienceLabel then some data.audience else none
        trendRows := none, fwAlignRows := none, exportBound := false } := by
    cases hc : dom.dataCardsGrid <;> cases hn : dom.narrativeBody <;>
      cases hf : dom.frameworkTags <;> cases hi : (dom.integrityFill && dom.integrityLabel) <;>
      cases ha : dom.audienceLabel <;>
      simp [setDataCards, setNarrative, setFwTags, setIntegrity, setAudience, hc, hn, hf, hi, ha]
  have eE : setTrends dom (some trl)
      { docTitle := some (data.topic ++ " — ESG Narrative Intelligence")
        topicBadgeText := if dom.topicBadge then some (data.icon ++ " " ++ data.topic) else none
        topicBadgeClass := if dom.topicBadge then some ("gen-topic-badge " ++ data.colorClass) else none
        reportDateText := if dom.reportDate then some today else none
        reportHeaderClass := if dom.reportHeader then some ("report-header " ++ data.colorClass) else none
        reportTypeTagClass := if dom.reportHeader then some ("report-type-tag " ++ data.colorClass) else none
        reportTypeTagText := if dom.reportHeader then some (data.icon ++ "  " ++ data.topic ++ " Narrative") else none
        reportTitleText := some tp.title
        reportSubtitleText := some tp.subtitle
        dataCards := if dom.dataCardsGrid then some (dataCards data.keyMetrics) else none
        narrative := if dom.narrativeBody then
          some (narrativeBlocks data.paragraphs data.colorClass data.pullQuote) else none
        fwTags := if dom.frameworkTags then some data.frameworks else none
        integrityLabelText := if dom.integrityFill && dom.integrityLabel then
          some ("Narrative Integrity: " ++ toString data.integrity ++ "%") else none
        integrityFillScheduled := dom.integrityFill && dom.integrityLabel
        audienceText := if dom.audienceLabel then some data.audience else none
        trendRows := none, fwAlignRows := none, exportBound := false } = Except.ok
      { docTitle := some (data.topic ++ " — ESG Narrative Intelligence")
        topicBadgeText := if dom.topicBadge then some (data.icon ++ " " ++ data.topic) else none
        topicBadgeClass := if dom.topicBadge then some ("gen-topic-badge " ++ data.colorClass) else none
        reportDateText := if dom.reportDate then some today else none
        reportHeaderClass := if dom.reportHeader then some ("report-header " ++ data.colorClass) else none
        reportTypeTagClass := if dom.reportHeader then some ("report-type-tag " ++ data.colorClass) else none
        reportTypeTagText := if dom.reportHeader then some (data.icon ++ "  " ++ data.topic ++ " Narrative") else none
        reportTitleText := some tp.title
        reportSubtitleText := some tp.subtitle
        dataCards := if dom.dataCardsGrid then some (dataCards data.keyMetrics) else none
        narrative := if dom.narrativeBody then
          some (narrativeBlocks data.paragraphs data.colorClass data.pullQuote) else none
        fwTags := if dom.frameworkTags then some data.frameworks else none
        integrityLabelText := if dom.integrityFill && dom.integrityLabel then
          some ("Narrative Integrity: " ++ toString data.integrity ++ "%") else none
        integrityFillScheduled := dom.integrityFill && dom.integrityLabel
        audienceText := if dom.audienceLabel then some data.audience else none
        trendRows := if dom.trendContainer then some trl else none
        fwAlignRows := none, exportBound := false } := by
    cases ht : dom.trendContainer <;> simp [setTrends, ht]
  have eF : setExport dom (setFwAlign dom data
      { docTitle := some (data.topic ++ " — ESG Narrative Intelligence")
        topicBadgeText := if dom.topicBadge then some (data.icon ++ " " ++ data.topic) else none
        topicBadgeClass := if dom.topicBadge then some ("gen-topic-badge " ++ data.colorClass) else none
        reportDateText := if dom.reportDate then some today else none
        reportHeaderClass := if dom.reportHeader then some ("report-header " ++ data.colorClass) else none
        reportTypeTagClass := if dom.reportHeader then some ("report-type-tag " ++ data.colorClass) else none
        reportTypeTagText := if dom.reportHeader then some (data.icon ++ "  " ++ data.topic ++ " Narrative") else none
        reportTitleText := some tp.title
        reportSubtitleText := some tp.subtitle
        dataCards := if dom.dataCardsGrid then some (dataCards data.keyMetrics) else none
        narrative := if dom.narrativeBody then
          some (narrativeBlocks data.paragraphs data.colorClass data.pullQuote) else none
        fwTags := if dom.frameworkTags then some data.frameworks else none
        integrityLabelText := if dom.integrityFill && dom.integrityLabel then
          some ("Narrative Integrity: " ++ toString data.integrity ++ "%") else none
        integrityFillScheduled := dom.integrityFill && dom.integrityLabel
        audienceText := if dom.audienceLabel then some data.audience else none
        trendRows := if dom.trendContainer then some trl else none
        fwAlignRows := none, exportBound := false }) =
      { docTitle := some (data.topic ++ " — ESG Narrative Intelligence")
        topicBadgeText := if dom.topicBadge then some (data.icon ++ " " ++ data.topic) else none
        topicBadgeClass := if dom.topicBadge then some ("gen-topic-badge " ++ data.colorClass) else none
        reportDateText := if dom.reportDate then some today else none
        reportHeaderClass := if dom.reportHeader then some ("report-header " ++ data.colorClass) else none
        reportTypeTagClass := if dom.reportHeader then some ("report-type-tag " ++ data.colorClass) else none
        reportTypeTagText := if dom.reportHeader then some (data.icon ++ "  " ++ data.topic ++ " Narrative") else none
        reportTitleText := some tp.title
        reportSubtitleText := some tp.subtitle
        dataCards := if dom.dataCardsGrid then some (dataCards data.keyMetrics) else none
        narrative := if dom.narrativeBody then
          some (narrativeBlocks data.paragraphs data.colorClass data.pullQuote) else none
        fwTags := if dom.frameworkTags then some data.frameworks else none
        integrityLabelText := if dom.integrityFill && dom.integrityLabel then
          some ("Narrative Integrity: " ++ toString data.integrity ++ "%") else none
        integrityFillScheduled := dom.integrityFill && dom.integrityLabel
        audienceText := if dom.audienceLabel then some data.audience else none
        trendRows := if dom.trendContainer then some trl else none
        fwAlignRows := if dom.fwAlignContainer then some (fwStatus data.frameworks) else none
        exportBound := dom.exportBtn } := by
    cases hal : dom.fwAlignContainer <;> cases hex : dom.exportBtn <;>
      simp [setFwAlign, setExport, hal, hex]
  simp only [renderBody]
  rw [eA, eB]
  simp only [onOk_ok]
  rw [eC]
  simp only [onOk_ok]
  rw [eD, eE]
  simp only [onOk_ok]
  rw [eF]

theorem renderBody_guarded (dom : Dom) (data : Profile) (tp : TitlePair)
    (trl : List Trend) (today : String)
    (h1 : dom.reportTitle = true) (h2 : dom.reportSubtitle = true)
    (h3 : dom.reportHeader = true → dom.reportTypeTag = true) :
    guardedPopulation (renderBody dom data (some tp) (some trl) today) dom := by
  rw [renderBody_eq dom data tp trl today h1 h2 h3]
  exact ⟨rfl, rfl, isSome_ite_some_none dom.topicBadge _, isSome_ite_some_none dom.reportDate _,
    isSome_ite_some_none dom.reportHeader _, isSome_ite_some_none dom.reportHeader _,
    rfl, rfl, isSome_ite_some_none dom.dataCardsGrid _, isSome_ite_some_none dom.narrativeBody _,
    isSome_ite_some_none dom.frameworkTags _,
    isSome_ite_some_none (dom.integrityFill && dom.integrityLabel) _,
    isSome_ite_some_none dom.audienceLabel _, isSome_ite_some_none dom.trendContainer _,
    isSome_ite_some_none dom.fwAlignContainer _, rfl⟩


/- ══════════════ the claims ══════════════ -/

/-- Claim C1 counterexample: for the invalid non-empty stored selection
"carbon", `initGeneratePage` does not resolve to the default topic and
render the climate profile — it returns as a no-op with nothing written
(not even the document title). -/
theorem c1_counterexample :
    initGeneratePage (some "carbon") fullDom "1 January 2025" = RenderResult.noop ∧
    (initGeneratePage (some "carbon") fullDom "1 January 2025").page.docTitle = none :=
  ⟨rfl, rfl⟩

/-- Claim C1 (amended): only an absent (or empty, i.e. falsy) stored
selection falls back to the default topic "climate" and renders that
profile's content; a stored non-empty identifier missing from the Profile
Store makes the renderer a no-op instead of falling back. -/
theorem c1_invalid_noops_absent_defaults (s : String) (dom : Dom) (today : String)
    (hs : ¬ s = "") (hinv : DATA_PROFILES s = none) :
    initGeneratePage (some s) dom today = RenderResult.noop ∧
    (initGeneratePage none fullDom today).page.docTitle =
      some "Climate & Emissions — ESG Narrative Intelligence" := by
  constructor
  · simp only [initGeneratePage, resolveTopic, if_neg hs, hinv]
  · rfl

/-- Claim C1 witness: the amended claim evaluated at the invalid
identifier "carbon" and a concrete report date. -/
theorem c1_invalid_noops_absent_defaults_witness :
    (¬ ("carbon" : String) = "") ∧ DATA_PROFILES "carbon" = none ∧
    (initGeneratePage (some "carbon") fullDom "1 January 2025" = RenderResult.noop ∧
     (initGeneratePage none fullDom "1 January 2025").page.docTitle =
       some "Climate & Emissions — ESG Narrative Intelligence") :=
  ⟨by decide, rfl, c1_invalid_noops_absent_defaults "carbon" fullDom "1 January 2025" (by decide) rfl⟩

/-- Claim C2 counterexample: with every element present except
`reportTitle`, the renderer throws (line 195 dereferences the missing
element with no guard), and the later regions — narrative, metrics grid —
stay unpopulated although their own target elements are present. -/
theorem c2_counterexample :
    (initGeneratePage none { fullDom with reportTitle := false } "1 January 2025").isThrew = true ∧
    ({ fullDom with reportTitle := false } : Dom).narrativeBody = true ∧
    (initGeneratePage none { fullDom with reportTitle := false } "1 January 2025").page.narrative = none ∧
    (initGeneratePage none { fullDom with reportTitle := false } "1 January 2025").page.dataCards = none :=
  ⟨rfl, rfl, rfl, rfl⟩

/-- Claim C2 (amended): for a stored selection resolving to a valid topic,
and provided the three unguarded dereferences cannot fire (the
`reportTitle` and `reportSubtitle` elements exist, and `reportTypeTag`
exists whenever `reportHeader` does), no error is raised and every other
population step is independently guarded: each region is populated exactly
when its own target element is present, for every combination of absent
target regions. -/
theorem c2_guarded_population (stored : Option String) (dom : Dom) (today : String)
    (hvalid : (DATA_PROFILES (resolveTopic stored)).isSome = true)
    (h1 : dom.reportTitle = true) (h2 : dom.reportSubtitle = true)
    (h3 : dom.reportHeader = true → dom.reportTypeTag = true) :
    guardedPopulation (initGeneratePage stored dom today) dom := by
  rcases valid_topic_cases _ hvalid with hc | hc | hc
  · have he : initGeneratePage stored dom today =
        renderBody dom climateProfile (some climateTitle) (some climateTrends) today := by
      simp only [initGeneratePage, hc, DATA_PROFILES_climate, titles_climate, trends_climate]
    rw [he]
    exact renderBody_guarded dom climateProfile climateTitle climateTrends today h1 h2 h3
  · have he : initGeneratePage stored dom today =
        renderBody dom energyProfile (some energyTitle) (some energyTrends) today := by
      simp only [initGeneratePage, hc, DATA_PROFILES_energy, titles_energy, trends_energy]
    rw [he]
    exact renderBody_guarded dom energyProfile energyTitle energyTrends today h1 h2 h3
  · have he : initGeneratePage stored dom today =
        renderBody dom operationsProfile (some operationsTitle) (some operationsTrends) today := by
      simp only [initGeneratePage, hc, DATA_PROFILES_operations, titles_operations, trends_operations]
    rw [he]
    exact renderBody_guarded dom operationsProfile operationsTitle operationsTrends today h1 h2 h3

/-- Claim C2 witness: the amended claim evaluated with no stored selection
and the full report DOM. -/
theorem c2_guarded_population_witness :
    (DATA_PROFILES (resolveTopic none)).isSome = true ∧
    fullDom.reportTitle = true ∧ fullDom.reportSubtitle = true ∧
    (fullDom.reportHeader = true → fullDom.reportTypeTag = true) ∧
    guardedPopulation (initGeneratePage none fullDom "1 January 2025") fullDom :=
  ⟨rfl, rfl, rfl, fun _ => rfl,
    c2_guarded_population none fullDom "1 January 2025" rfl rfl rfl (fun _ => rfl)⟩

/-- Claim C3: for every stored non-empty selection that is not a key of
the Profile Store, `initGeneratePage` performs no DOM population at all
(the outcome is the no-op, its page the empty page) and does not throw. -/
theorem c3_invalid_selection_noop (s : String) (dom : Dom) (today : String)
    (hs : ¬ s = "") (hinv : DATA_PROFILES s = none) :
    initGeneratePage (some s) dom today = RenderResult.noop ∧
    (initGeneratePage (some s) dom today).page = emptyPage := by
  have h : initGeneratePage (some s) dom today = RenderResult.noop := by
    simp only [initGeneratePage, resolveTopic, if_neg hs, hinv]
  exact ⟨h, by rw [h]; rfl⟩

/-- Claim C3 witness: the invalid identifier "esg" on the full DOM. -/
theorem c3_invalid_selection_noop_witness :
    (¬ ("esg" : String) = "") ∧ DATA_PROFILES "esg" = none ∧
    (initGeneratePage (some "esg") fullDom "2 March 2025" = RenderResult.noop ∧
     (initGeneratePage (some "esg") fullDom "2 March 2025").page = emptyPage) :=
  ⟨by decide, rfl, c3_invalid_selection_noop "esg" fullDom "2 March 2025" (by decide) rfl⟩

/-- Claim C4 counterexample: a profile with a single paragraph renders the
narrative region with that paragraph only — no pull-quote block at all,
refuting "with fewer than 2 paragraphs it is still rendered". -/
theorem c4_counterexample :
    (setNarrative fullDom { climateProfile with paragraphs := ["Only paragraph."] }
        emptyPage).narrative = some [NarrBlock.para "Only paragraph."] ∧
    (narrativeBlocks ["Only paragraph."] climateProfile.colorClass
        climateProfile.pullQuote).countP NarrBlock.isQuote = 0 :=
  ⟨rfl, rfl⟩

/-- Claim C4 (amended): the pull-quote block is emitted exactly when at
least 2 paragraphs exist (immediately after index 1, see C5); with fewer
than 2 paragraphs the `i === 1` branch never fires and no pull-quote is
rendered at all. -/
theorem c4_quote_iff_two_paragraphs (paras : List String) (c q : String) :
    (narrativeBlocks paras c q).countP NarrBlock.isQuote =
      if 2 ≤ paras.length then 1 else 0 := by
  match paras with
  | [] => rfl
  | [a] => rfl
  | a :: b :: rest =>
    rw [narrativeBlocks_cons_cons]
    have h2 : 2 ≤ (a :: b :: rest).length := by
      simp only [List.length_cons]
      omega
    rw [if_pos h2]
    simp [List.countP_cons, NarrBlock.isQuote, countP_isQuote_map_para]

/-- Claim C5: for every profile with at least 2 paragraphs, the narrative
region holds the first paragraph, the second paragraph, the pull-quote
block, then the remaining paragraphs in their original order; the
pull-quote appears exactly once. -/
theorem c5_quote_after_second_paragraph (data : Profile) (a b : String) (rest : List String)
    (h : data.paragraphs = a :: b :: rest) :
    (setNarrative fullDom data emptyPage).narrative =
      some (NarrBlock.para a :: NarrBlock.para b ::
        NarrBlock.quote data.colorClass data.pullQuote :: rest.map NarrBlock.para) ∧
    (narrativeBlocks data.paragraphs data.colorClass data.pullQuote).countP
      NarrBlock.isQuote = 1 := by
  have hn : (setNarrative fullDom data emptyPage).narrative =
      some (narrativeBlocks data.paragraphs data.colorClass data.pullQuote) := rfl
  constructor
  · rw [hn, h, narrativeBlocks_cons_cons]
  · rw [h, narrativeBlocks_cons_cons]
    simp [List.countP_cons, NarrBlock.isQuote, countP_isQuote_map_para]

/-- Claim C5 witness: a three-paragraph profile evaluated concretely. -/
theorem c5_quote_after_second_paragraph_witness :
    ({ climateProfile with paragraphs := ["A", "B", "C"] } : Profile).paragraphs =
      "A" :: "B" :: ["C"] ∧
    ((setNarrative fullDom { climateProfile with paragraphs := ["A", "B", "C"] }
        emptyPage).narrative =
      some (NarrBlock.para "A" :: NarrBlock.para "B" ::
        NarrBlock.quote climateProfile.colorClass climateProfile.pullQuote ::
          ["C"].map NarrBlock.para) ∧
     (narrativeBlocks ["A", "B", "C"] climateProfile.colorClass
        climateProfile.pullQuote).countP NarrBlock.isQuote = 1) :=
  ⟨rfl, c5_quote_after_second_paragraph
    { climateProfile with paragraphs := ["A", "B", "C"] } "A" "B" ["C"] rfl⟩

/-- Claim C6: the framework-alignment status and label of the row at index
`i` are a pure function of the index alone — "ready"/"✓ Ready" for i < 3,
"partial"/"◑ Partial" for i = 3, "pending"/"○ Pending" for i > 3 — for
framework lists of every length, with one row per framework. -/
theorem c6_framework_status_by_index (fws : List String) (i : Nat) (f : String)
    (h : fws[i]? = some f) :
    (fwStatus fws).length = fws.length ∧
    (fwStatus fws)[i]? = some
      { name := f
        status := if i < 3 then "ready" else if i = 3 then "partial" else "pending"
        label := if i < 3 then "✓ Ready" else if i = 3 then "◑ Partial" else "○ Pending" } := by
  constructor
  · simp [fwStatus]
  · simp [fwStatus, List.getElem?_map, List.getElem?_enum, h]

/-- Claim C6 witness: a 5-element framework list at the "partial" index 3. -/
theorem c6_framework_status_by_index_witness :
    ((["GRI 305", "TCFD", "ISSB IFRS S2", "CSRD/ESRS E1", "SBTi"] : List String)[3]? =
      some "CSRD/ESRS E1") ∧
    ((fwStatus ["GRI 305", "TCFD", "ISSB IFRS S2", "CSRD/ESRS E1", "SBTi"]).length = 5 ∧
     (fwStatus ["GRI 305", "TCFD", "ISSB IFRS S2", "CSRD/ESRS E1", "SBTi"])[3]? =
       some { name := "CSRD/ESRS E1", status := "partial", label := "◑ Partial" }) :=
  ⟨rfl, c6_framework_status_by_index
    ["GRI 305", "TCFD", "ISSB IFRS S2", "CSRD/ESRS E1", "SBTi"] 3 "CSRD/ESRS E1" rfl⟩

/-- Claim C7: the metrics grid holds exactly one card per metric record in
the original order, with the pillar letter expanded (E → Environmental,
S → Social, G → Governance) and the direction mapped to its glyph
(up → ▲, down → ▼, flat → —). -/
theorem c7_metric_cards (ms : List Metric) (i : Nat) (m : Metric) (h : ms[i]? = some m) :
    (dataCards ms).length = ms.length ∧
    (dataCards ms)[i]? = some (metricCard m) ∧
    (m.pillar = "E" → (metricCard m).pillarText = "● Environmental") ∧
    (m.pillar = "S" → (metricCard m).pillarText = "● Social") ∧
    (m.pillar = "G" → (metricCard m).pillarText = "● Governance") ∧
    (m.dir = "up" → (metricCard m).changeText = "▲ " ++ m.change) ∧
    (m.dir = "down" → (metricCard m).changeText = "▼ " ++ m.change) ∧
    (m.dir = "flat" → (metricCard m).changeText = "— " ++ m.change) := by
  refine ⟨by simp [dataCards], by simp [dataCards, List.getElem?_map, h], ?_, ?_, ?_, ?_, ?_, ?_⟩
  all_goals intro hm
  all_goals simp only [metricCard, hm]
  all_goals rfl

/-- Claim C7 witness: a one-metric list with pillar E and direction up. -/
theorem c7_metric_cards_witness :
    (([{ pillar := "E", value := "1", unit := "", label := "L", change := "c", dir := "up" }] :
        List Metric)[0]? =
      some { pillar := "E", value := "1", unit := "", label := "L", change := "c", dir := "up" }) ∧
    ((dataCards [{ pillar := "E", value := "1", unit := "", label := "L", change := "c", dir := "up" }]).length = 1 ∧
     (dataCards [{ pillar := "E", value := "1", unit := "", label := "L", change := "c", dir := "up" }])[0]? =
       some (metricCard { pillar := "E", value := "1", unit := "", label := "L", change := "c", dir := "up" }) ∧
     (("E" : String) = "E" → (metricCard { pillar := "E", value := "1", unit := "", label := "L", change := "c", dir := "up" }).pillarText = "● Environmental") ∧
     (("E" : String) = "S" → (metricCard { pillar := "E", value := "1", unit := "", label := "L", change := "c", dir := "up" }).pillarText = "● Social") ∧
     (("E" : String) = "G" → (metricCard { pillar := "E", value := "1", unit := "", label := "L", change := "c", dir := "up" }).pillarText = "● Governance") ∧
     (("up" : String) = "up" → (metricCard { pillar := "E", value := "1", unit := "", label := "L", change := "c", dir := "up" }).changeText = "▲ " ++ "c") ∧
     (("up" : String) = "down" → (metricCard { pillar := "E", value := "1", unit := "", label := "L", change := "c", dir := "up" }).changeText = "▼ " ++ "c") ∧
     (("up" : String) = "flat" → (metricCard { pillar := "E", value := "1", unit := "", label := "L", change := "c", dir := "up" }).changeText = "— " ++ "c")) :=
  ⟨rfl, c7_metric_cards
    [{ pillar := "E", value := "1", unit := "", label := "L", change := "c", dir := "up" }] 0
    { pillar := "E", value := "1", unit := "", label := "L", change := "c", dir := "up" } rfl⟩

/-- Claim C8: with no stored selection and the full report DOM,
`initGeneratePage` resolves to the climate profile without error, the
report title is the climate title, and the integrity label shows
"Narrative Integrity: 98%" with the stored integer 98 unmodified. -/
theorem c8_default_selection_renders_climate (today : String) :
    (initGeneratePage none fullDom today).isThrew = false ∧
    (initGeneratePage none fullDom today).page.reportTitleText =
      some "Climate Performance & Decarbonisation Progress: FY2024 Strategic Disclosure" ∧
    (initGeneratePage none fullDom today).page.integrityLabelText =
      some "Narrative Integrity: 98%" ∧
    climateProfile.integrity = 98 :=
  ⟨rfl, rfl, rfl, rfl⟩

/-- Claim C9: the Landing Controller accepts exactly the three topic
identifiers "climate", "energy", "operations", and for each of them the
Profile Store, the title table and the trends table hold a non-empty
entry (6 metrics, 5 frameworks, 4 paragraphs, a non-empty title, 4 trend
rows). -/
theorem c9_topic_tables :
    (∀ s : String, landingAccepts s = true ↔
      (s = "climate" ∨ s = "energy" ∨ s = "operations")) ∧
    DATA_PROFILES "climate" = some climateProfile ∧
    DATA_PROFILES "energy" = some energyProfile ∧
    DATA_PROFILES "operations" = some operationsProfile ∧
    titles "climate" = some climateTitle ∧
    titles "energy" = some energyTitle ∧
    titles "operations" = some operationsTitle ∧
    trends "climate" = some climateTrends ∧
    trends "energy" = some energyTrends ∧
    trends "operations" = some operationsTrends ∧
    climateProfile.keyMetrics.length = 6 ∧ climateProfile.frameworks.length = 5 ∧
    climateProfile.paragraphs.length = 4 ∧ (¬ climateTitle.title = "") ∧
    climateTrends.length = 4 ∧
    energyProfile.keyMetrics.length = 6 ∧ energyProfile.frameworks.length = 5 ∧
    energyProfile.paragraphs.length = 4 ∧ (¬ energyTitle.title = "") ∧
    energyTrends.length = 4 ∧
    operationsProfile.keyMetrics.length = 6 ∧ operationsProfile.frameworks.length = 5 ∧
    operationsProfile.paragraphs.length = 4 ∧ (¬ operationsTitle.title = "") ∧
    operationsTrends.length = 4 := by
  refine ⟨?_, rfl, rfl, rfl, rfl, rfl, rfl, rfl, rfl, rfl, rfl, rfl, rfl, by decide, rfl,
    rfl, rfl, rfl, by decide, rfl, rfl, rfl, rfl, by decide, rfl⟩
  intro s
  unfold landingAccepts DATA_PROFILES
  split_ifs with h1 h2 h3
  · simp [h1]
  · simp [h2]
  · simp [h3]
  · simp [h1, h2, h3]

/-- Claim C10: an empty-string stored selection is treated exactly as an
absent one (the `||` fallback tests falsiness, not absence): the renderer
behaves identically, renders the climate document title, and is not a
no-op. -/
theorem c10_empty_selection_defaults (dom : Dom) (today : String) :
    initGeneratePage (some "") dom today = initGeneratePage none dom today ∧
    (initGeneratePage (some "") fullDom today).page.docTitle =
      some "Climate & Emissions — ESG Narrative Intelligence" ∧
    initGeneratePage (some "") fullDom today ≠ RenderResult.noop := by
  refine ⟨rfl, rfl, ?_⟩
  intro hc
  have h2 : (initGeneratePage (some "") fullDom today).page.docTitle =
      some "Climate & Emissions — ESG Narrative Intelligence" := rfl
  rw [hc] at h2
  exact Option.noConfusion h2
